import Mathlib

/-
Shallow embedding of pkg/service/grpc_service.go from the flagd repository:
the gRPC front end that resolves feature-flag values, translates evaluator
errors into protocol statuses, and manages the serve/shutdown lifecycle.

Go errors are modelled by their message string (err.Error() is all this file
ever inspects); `nil` error is `Option.none`.  gRPC library collaborators
(status, codes, structpb) are modelled from their documented semantics.
-/

set_option autoImplicit false

namespace Flagd

/-- The subset of gRPC status codes used by the service (google.golang.org/grpc/codes). -/
inductive Code where
  | ok
  | notFound
  | invalidArgument
  | internal
  deriving DecidableEq, Repr

/-- Modelled from the spec: the domain error code for "flag not found" declared in
the repository's model package (pkg/model), which is not under src/; only its use
in grpc_service.go is visible.  Its concrete value is irrelevant to the claims,
only that it differs from the type-mismatch code. -/
def FlagNotFoundErrorCode : String := "FLAG_NOT_FOUND"

/-- Modelled from the spec: the domain error code for "type mismatch" declared in
the repository's model package (pkg/model), not under src/. -/
def TypeMismatchErrorCode : String := "TYPE_MISMATCH"

/-- The generated ErrorResponse detail message (gen.ErrorResponse): the structured
detail payload attached to an error status. -/
structure ErrorResponse where
  errorCode : String
  reason : String
  deriving DecidableEq, Repr

/-- A gRPC status: code, message, and attached detail payloads
(google.golang.org/grpc/status). -/
structure GrpcStatus where
  code : Code
  message : String
  details : List ErrorResponse
  deriving DecidableEq, Repr

/-- status.New(c, msg): a status with no details. -/
def statusNew (c : Code) (msg : String) : GrpcStatus :=
  { code := c, message := msg, details := [] }

/-- st.WithDetails(d): per the grpc-go library, fails when the status code is OK
or when proto-marshaling the detail message fails; otherwise returns a copy of the
status with the detail appended.  The marshal outcome is an effect of the proto
library, passed in as the Boolean `marshalOk` (for the string-only ErrorResponse
message it succeeds in practice). -/
def withDetails (st : GrpcStatus) (d : ErrorResponse) (marshalOk : Bool) :
    Except String GrpcStatus :=
  if st.code = Code.ok then
    Except.error "no error details for status with code OK"
  else if marshalOk then
    Except.ok { st with details := st.details ++ [d] }
  else
    Except.error "marshal failure"

/-- st.Err(): the Go error for a status; nil (none) exactly when the code is OK. -/
def statusErr (st : GrpcStatus) : Option GrpcStatus :=
  if st.code = Code.ok then none else some st

/-- HandleEvaluationError (grpc_service.go lines 152-171).  `errMsg` is
err.Error() of the evaluator error; the `reason` argument is accepted but unused
by the source; `marshalOk` models whether proto-marshaling of the detail payload
succeeds (see `withDetails`).  Returns the Go error produced (none would mean nil). -/
def HandleEvaluationError (errMsg : String) (reason : String) (marshalOk : Bool) :
    Option GrpcStatus :=
  let statusCode :=
    if errMsg = FlagNotFoundErrorCode then Code.notFound
    else if errMsg = TypeMismatchErrorCode then Code.invalidArgument
    else Code.internal
  let message := errMsg
  let st := statusNew statusCode message
  match withDetails st { errorCode := message, reason := "ERROR" } marshalOk with
  | Except.error _ => statusErr st
  | Except.ok stWD => statusErr stWD

/-- A dynamically-typed Go value (map[string]interface{} entries) as accepted by
structpb.NewStruct; `unsupported` stands for any Go value with no structpb
representation (e.g. a channel or function). -/
inductive DynValue where
  | null
  | boolV (b : Bool)
  | numV (n : Int)
  | strV (s : String)
  | listV (xs : List DynValue)
  | objV (fs : List (String × DynValue))
  | unsupported (desc : String)

/-- A structpb.Value (the protocol's structured-value representation). -/
inductive StructValue where
  | nullValue
  | boolValue (b : Bool)
  | numberValue (n : Int)
  | stringValue (s : String)
  | listValue (xs : List StructValue)
  | structValue (fs : List (String × StructValue))

mutual

/-- structpb.NewValue: convert one dynamic value; fails on an unsupported type,
anywhere in the nesting. -/
def newValue : DynValue → Except String StructValue
  | DynValue.null => Except.ok StructValue.nullValue
  | DynValue.boolV b => Except.ok (StructValue.boolValue b)
  | DynValue.numV n => Except.ok (StructValue.numberValue n)
  | DynValue.strV s => Except.ok (StructValue.stringValue s)
  | DynValue.listV xs => do
      let vs ← newList xs
      Except.ok (StructValue.listValue vs)
  | DynValue.objV fs => do
      let gs ← newFields fs
      Except.ok (StructValue.structValue gs)
  | DynValue.unsupported d => Except.error (String.append "proto: invalid type: " d)

/-- Convert each element of a list value. -/
def newList : List DynValue → Except String (List StructValue)
  | [] => Except.ok []
  | x :: xs => do
      let v ← newValue x
      let vs ← newList xs
      Except.ok (v :: vs)

/-- Convert each field of a string-keyed mapping. -/
def newFields : List (String × DynValue) → Except String (List (String × StructValue))
  | [] => Except.ok []
  | (k, x) :: fs => do
      let v ← newValue x
      let vs ← newFields fs
      Except.ok ((k, v) :: vs)

end

/-- structpb.NewStruct: convert a string-to-dynamic-value mapping into the
protocol's structured representation. -/
def newStruct (m : List (String × DynValue)) :
    Except String (List (String × StructValue)) :=
  newFields m

/-- An evaluation context (req.GetContext()): string keys to dynamic values. -/
abbrev Ctx := List (String × DynValue)

/-- Go float64 values pass through this layer opaquely (they are only copied from
evaluator output to response), so their numeric semantics is irrelevant; an
integer stand-in keeps the embedding executable. -/
abbrev GoFloat := Int

/-- The evaluator collaborator (eval.IEvaluator): each resolve operation returns
(value, variant, reason, error), with the error modelled by its message. -/
structure IEvaluator where
  resolveBooleanValue : String → Ctx → Bool × String × String × Option String
  resolveStringValue : String → Ctx → String × String × String × Option String
  resolveIntValue : String → Ctx → Int × String × String × Option String
  resolveFloatValue : String → Ctx → GoFloat × String × String × Option String
  resolveObjectValue : String → Ctx →
    List (String × DynValue) × String × String × Option String

/-- The common shape of the five generated request messages
(gen.ResolveBooleanRequest etc.): each carries exactly a flag key and an
evaluation context. -/
structure ResolutionRequest where
  flagKey : String
  context : Ctx

/-- gen.ResolveBooleanResponse; defaults are Go zero values. -/
structure ResolveBooleanResponse where
  value : Bool := false
  variant : String := ""
  reason : String := ""
  deriving DecidableEq, Repr

/-- gen.ResolveStringResponse. -/
structure ResolveStringResponse where
  value : String := ""
  variant : String := ""
  reason : String := ""
  deriving DecidableEq, Repr

/-- gen.ResolveIntResponse. -/
structure ResolveIntResponse where
  value : Int := 0
  variant : String := ""
  reason : String := ""
  deriving DecidableEq, Repr

/-- gen.ResolveFloatResponse. -/
structure ResolveFloatResponse where
  value : GoFloat := (0 : Int)
  variant : String := ""
  reason : String := ""

/-- gen.ResolveObjectResponse; the value field is a *structpb.Struct pointer,
whose Go zero value is nil (none). -/
structure ResolveObjectResponse where
  value : Option (List (String × StructValue)) := none
  variant : String := ""
  reason : String := ""

/-- GRPCServiceConfiguration (grpc_service.go lines 20-25). -/
structure GRPCServiceConfiguration where
  Port : Int
  ServerKeyPath : String
  ServerCertPath : String
  ServerSocketPath : String

/-- GRPCService (grpc_service.go lines 27-32): configuration plus the bound
evaluator.  `marshalOk` carries the proto-marshal effect outcome consumed by
HandleEvaluationError (see `withDetails`); in practice it is true. -/
structure GRPCService where
  grpcServiceConfiguration : GRPCServiceConfiguration
  eval : IEvaluator
  marshalOk : Bool := true

/-- ResolveBoolean (grpc_service.go lines 73-86). -/
def ResolveBoolean (s : GRPCService) (req : ResolutionRequest) :
    ResolveBooleanResponse × Option GrpcStatus :=
  let res : ResolveBooleanResponse := {}
  match s.eval.resolveBooleanValue req.flagKey req.context with
  | (_, _, reason, some e) => (res, HandleEvaluationError e reason s.marshalOk)
  | (result, variant, reason, none) =>
      ({ res with reason := reason, value := result, variant := variant }, none)

/-- ResolveString (grpc_service.go lines 88-101). -/
def ResolveString (s : GRPCService) (req : ResolutionRequest) :
    ResolveStringResponse × Option GrpcStatus :=
  let res : ResolveStringResponse := {}
  match s.eval.resolveStringValue req.flagKey req.context with
  | (_, _, reason, some e) => (res, HandleEvaluationError e reason s.marshalOk)
  | (result, variant, reason, none) =>
      ({ res with reason := reason, value := result, variant := variant }, none)

/-- ResolveInt (grpc_service.go lines 103-116). -/
def ResolveInt (s : GRPCService) (req : ResolutionRequest) :
    ResolveIntResponse × Option GrpcStatus :=
  let res : ResolveIntResponse := {}
  match s.eval.resolveIntValue req.flagKey req.context with
  | (_, _, reason, some e) => (res, HandleEvaluationError e reason s.marshalOk)
  | (result, variant, reason, none) =>
      ({ res with reason := reason, value := result, variant := variant }, none)

/-- ResolveFloat (grpc_service.go lines 118-131). -/
def ResolveFloat (s : GRPCService) (req : ResolutionRequest) :
    ResolveFloatResponse × Option GrpcStatus :=
  let res : ResolveFloatResponse := {}
  match s.eval.resolveFloatValue req.flagKey req.context with
  | (_, _, reason, some e) => (res, HandleEvaluationError e reason s.marshalOk)
  | (result, variant, reason, none) =>
      ({ res with reason := reason, value := result, variant := variant }, none)

/-- ResolveObject (grpc_service.go lines 133-150): on evaluator success the
returned mapping is converted via structpb.NewStruct; a conversion error is
handled exactly like an evaluator error. -/
def ResolveObject (s : GRPCService) (req : ResolutionRequest) :
    ResolveObjectResponse × Option GrpcStatus :=
  let res : ResolveObjectResponse := {}
  match s.eval.resolveObjectValue req.flagKey req.context with
  | (_, _, reason, some e) => (res, HandleEvaluationError e reason s.marshalOk)
  | (result, variant, reason, none) =>
      match newStruct result with
      | Except.error e => (res, HandleEvaluationError e reason s.marshalOk)
      | Except.ok val =>
          ({ res with reason := reason, value := some val, variant := variant }, none)

/-- The transport a listener is bound to: net.Listen("unix", path) or
net.Listen("tcp", ":port"). -/
inductive Transport where
  | unix (path : String)
  | tcp (port : Int)
  deriving DecidableEq, Repr

/-- What first unblocks the wait on the errgroup context: the external
cancellation signal, or the accept-loop goroutine returning a non-nil error
(errgroup cancels its context on the first goroutine failure). -/
inductive AcceptOutcome where
  | ctxCancelled
  | loopError (msg : String)

/-- Outcomes of the external effects Serve performs: loadTLSConfig, net.Listen,
and the accept loop / cancellation race. -/
structure ServeEnv where
  tlsLoad : Except String Unit
  listen : Transport → Except String Unit
  acceptLoop : AcceptOutcome

/-- Observable outcome of one run of Serve: its returned Go error (none = nil),
which transport net.Listen was invoked with (none = never reached), whether TLS
credentials were installed, and whether the service reached the serving phase
(the g.Go / wait / GracefulStop block). -/
structure ServeOutcome where
  result : Option String
  listenAttempted : Option Transport
  tlsUsed : Bool
  served : Bool
  deriving DecidableEq, Repr

/-- Transport selection inside Serve (grpc_service.go lines 55-59). -/
def selectTransport (cfg : GRPCServiceConfiguration) : Transport :=
  if cfg.ServerSocketPath ≠ "" then Transport.unix cfg.ServerSocketPath
  else Transport.tcp cfg.Port

/-- The tail of Serve after the TLS block (grpc_service.go lines 52-69): bind the
listener, start the accept loop in the errgroup, wait for the errgroup context,
gracefully stop, and return nil.  Both causes of the context firing — external
cancellation and accept-loop failure — lead to the same `return nil`. -/
def serveListen (cfg : GRPCServiceConfiguration) (env : ServeEnv) (tlsUsed : Bool) :
    ServeOutcome :=
  let t := selectTransport cfg
  match env.listen t with
  | Except.error e =>
      { result := some e, listenAttempted := some t, tlsUsed := tlsUsed, served := false }
  | Except.ok _ =>
      match env.acceptLoop with
      | AcceptOutcome.ctxCancelled =>
          { result := none, listenAttempted := some t, tlsUsed := tlsUsed, served := true }
      | AcceptOutcome.loopError _ =>
          { result := none, listenAttempted := some t, tlsUsed := tlsUsed, served := true }

/-- Serve (grpc_service.go lines 36-70): TLS setup when both cert and key paths
are non-empty, then listener creation and the serving loop. -/
def Serve (cfg : GRPCServiceConfiguration) (env : ServeEnv) : ServeOutcome :=
  if cfg.ServerCertPath ≠ "" ∧ cfg.ServerKeyPath ≠ "" then
    match env.tlsLoad with
    | Except.error e =>
        { result := some e, listenAttempted := none, tlsUsed := false, served := false }
    | Except.ok _ => serveListen cfg env true
  else
    serveListen cfg env false

/-- C1: HandleEvaluationError maps the flag-not-found domain code to the
not-found status code, the type-mismatch domain code to invalid-argument, and any
other error message to internal. -/
theorem C1_error_code_classification (msg reason : String) (marshalOk : Bool) :
    (HandleEvaluationError FlagNotFoundErrorCode reason marshalOk).map GrpcStatus.code
      = some Code.notFound ∧
    (HandleEvaluationError TypeMismatchErrorCode reason marshalOk).map GrpcStatus.code
      = some Code.invalidArgument ∧
    (msg ≠ FlagNotFoundErrorCode → msg ≠ TypeMismatchErrorCode →
      (HandleEvaluationError msg reason marshalOk).map GrpcStatus.code
        = some Code.internal) := by
  refine ⟨?_, ?_, fun h1 h2 => ?_⟩ <;> cases marshalOk
  · rfl
  · rfl
  · rfl
  · rfl
  · simp [HandleEvaluationError, withDetails, statusNew, statusErr, h1, h2]
  · simp [HandleEvaluationError, withDetails, statusNew, statusErr, h1, h2]

/-- Witness for C1 at concrete inputs: the two domain codes and the unrelated
message "boom". -/
theorem C1_witness :
    (HandleEvaluationError FlagNotFoundErrorCode "reason0" true).map GrpcStatus.code
      = some Code.notFound ∧
    (HandleEvaluationError TypeMismatchErrorCode "reason0" true).map GrpcStatus.code
      = some Code.invalidArgument ∧
    (HandleEvaluationError "boom" "reason0" true).map GrpcStatus.code
      = some Code.internal := by
  have h := C1_error_code_classification "boom" "reason0" true
  exact ⟨h.1, h.2.1, h.2.2 (by decide) (by decide)⟩

/-- C2: the status returned by HandleEvaluationError carries exactly one detail
payload, whose errorCode field is the raw domain error code (the evaluator
error's message) and whose reason field is the fixed string "ERROR", for every
error message and every value of the reason argument (the final `true` is the
proto-marshal effect outcome, which succeeds for this message type). -/
theorem C2_detail_payload (msg reason : String) :
    (HandleEvaluationError msg reason true).map GrpcStatus.details
      = some [{ errorCode := msg, reason := "ERROR" }] := by
  simp only [HandleEvaluationError, withDetails, statusNew, statusErr,
    FlagNotFoundErrorCode, TypeMismatchErrorCode]
  by_cases h1 : msg = "FLAG_NOT_FOUND" <;> by_cases h2 : msg = "TYPE_MISMATCH" <;>
    simp [h1, h2]

/-- C10: HandleEvaluationError always returns a non-nil error whose status
message equals the evaluator error's message exactly, and the fallback taken when
attaching the detail payload fails keeps the same status code and the same
message as the detailed status. -/
theorem C10_nonnil_message_preserved (msg reason : String) (marshalOk : Bool) :
    (HandleEvaluationError msg reason marshalOk).isSome = true ∧
    (HandleEvaluationError msg reason marshalOk).map GrpcStatus.message = some msg ∧
    (HandleEvaluationError msg reason false).map GrpcStatus.code
      = (HandleEvaluationError msg reason true).map GrpcStatus.code ∧
    (HandleEvaluationError msg reason false).map GrpcStatus.message
      = (HandleEvaluationError msg reason true).map GrpcStatus.message := by
  simp only [HandleEvaluationError, withDetails, statusNew, statusErr,
    FlagNotFoundErrorCode, TypeMismatchErrorCode]
  by_cases h1 : msg = "FLAG_NOT_FOUND" <;> by_cases h2 : msg = "TYPE_MISMATCH" <;>
    cases marshalOk <;> simp [h1, h2]

/-- A default configuration: TCP port 8013, no TLS material, no socket path. -/
def cfg0 : GRPCServiceConfiguration :=
  { Port := 8013, ServerKeyPath := "", ServerCertPath := "", ServerSocketPath := "" }

/-- A request with a non-empty flag key and an empty context. -/
def req0 : ResolutionRequest := { flagKey := "myFlag", context := [] }

/-- A concrete evaluator whose every operation succeeds statically on variantA. -/
def evalStatic : IEvaluator where
  resolveBooleanValue := fun _ _ => (true, "variantA", "STATIC", none)
  resolveStringValue := fun _ _ => ("val", "variantA", "STATIC", none)
  resolveIntValue := fun _ _ => (7, "variantA", "STATIC", none)
  resolveFloatValue := fun _ _ => ((3 : Int), "variantA", "STATIC", none)
  resolveObjectValue := fun _ _ => ([("a", DynValue.numV 1)], "variantA", "STATIC", none)

/-- A concrete evaluator whose every operation fails with message "boom". -/
def evalErr : IEvaluator where
  resolveBooleanValue := fun _ _ => (false, "", "", some "boom")
  resolveStringValue := fun _ _ => ("", "", "", some "boom")
  resolveIntValue := fun _ _ => (0, "", "", some "boom")
  resolveFloatValue := fun _ _ => ((0 : Int), "", "", some "boom")
  resolveObjectValue := fun _ _ => ([], "", "", some "boom")

/-- Service bound to the static evaluator. -/
def svcStatic : GRPCService := { grpcServiceConfiguration := cfg0, eval := evalStatic }

/-- Service bound to the erroring evaluator. -/
def svcErr : GRPCService := { grpcServiceConfiguration := cfg0, eval := evalErr }

/-- C6: for each of the four primitive resolve operations, when the evaluator
returns (v, "variantA", "STATIC", nil) the response copies value, variant and
reason from the evaluator output, paired with a nil error. -/
theorem C6_success_copies_fields (s : GRPCService) (req : ResolutionRequest)
    (vb : Bool) (vs : String) (vi : Int) (vf : GoFloat) :
    (s.eval.resolveBooleanValue req.flagKey req.context = (vb, "variantA", "STATIC", none) →
      ResolveBoolean s req =
        ({ value := vb, variant := "variantA", reason := "STATIC" }, none)) ∧
    (s.eval.resolveStringValue req.flagKey req.context = (vs, "variantA", "STATIC", none) →
      ResolveString s req =
        ({ value := vs, variant := "variantA", reason := "STATIC" }, none)) ∧
    (s.eval.resolveIntValue req.flagKey req.context = (vi, "variantA", "STATIC", none) →
      ResolveInt s req =
        ({ value := vi, variant := "variantA", reason := "STATIC" }, none)) ∧
    (s.eval.resolveFloatValue req.flagKey req.context = (vf, "variantA", "STATIC", none) →
      ResolveFloat s req =
        ({ value := vf, variant := "variantA", reason := "STATIC" }, none)) := by
  refine ⟨fun h => ?_, fun h => ?_, fun h => ?_, fun h => ?_⟩ <;>
    simp [ResolveBoolean, ResolveString, ResolveInt, ResolveFloat, h]

/-- Witness for C6 at the static evaluator and a concrete request. -/
theorem C6_witness :
    ResolveBoolean svcStatic req0 =
      ({ value := true, variant := "variantA", reason := "STATIC" }, none) ∧
    ResolveString svcStatic req0 =
      ({ value := "val", variant := "variantA", reason := "STATIC" }, none) ∧
    ResolveInt svcStatic req0 =
      ({ value := 7, variant := "variantA", reason := "STATIC" }, none) ∧
    ResolveFloat svcStatic req0 =
      ({ value := (3 : Int), variant := "variantA", reason := "STATIC" }, none) := by
  have h := C6_success_copies_fields svcStatic req0 true "val" 7 (3 : Int)
  exact ⟨h.1 rfl, h.2.1 rfl, h.2.2.1 rfl, h.2.2.2 rfl⟩

/-- C9: for every resolve operation, whenever the evaluator reports a non-nil
error the response returned alongside the error status keeps its Go zero values
for the value and variant fields. -/
theorem C9_error_response_zero (s : GRPCService) (req : ResolutionRequest)
    (e var rsn : String) :
    (∀ vb : Bool,
      s.eval.resolveBooleanValue req.flagKey req.context = (vb, var, rsn, some e) →
      (ResolveBoolean s req).1.value = false ∧ (ResolveBoolean s req).1.variant = "") ∧
    (∀ vs : String,
      s.eval.resolveStringValue req.flagKey req.context = (vs, var, rsn, some e) →
      (ResolveString s req).1.value = "" ∧ (ResolveString s req).1.variant = "") ∧
    (∀ vi : Int,
      s.eval.resolveIntValue req.flagKey req.context = (vi, var, rsn, some e) →
      (ResolveInt s req).1.value = 0 ∧ (ResolveInt s req).1.variant = "") ∧
    (∀ vf : GoFloat,
      s.eval.resolveFloatValue req.flagKey req.context = (vf, var, rsn, some e) →
      (ResolveFloat s req).1.value = 0 ∧ (ResolveFloat s req).1.variant = "") ∧
    (∀ vo : List (String × DynValue),
      s.eval.resolveObjectValue req.flagKey req.context = (vo, var, rsn, some e) →
      (ResolveObject s req).1.value = none ∧ (ResolveObject s req).1.variant = "") := by
  refine ⟨fun v h => ?_, fun v h => ?_, fun v h => ?_, fun v h => ?_, fun v h => ?_⟩ <;>
    simp [ResolveBoolean, ResolveString, ResolveInt, ResolveFloat, ResolveObject, h]

/-- Witness for C9 at the erroring evaluator and a concrete request. -/
theorem C9_witness :
    ((ResolveBoolean svcErr req0).1.value = false ∧
      (ResolveBoolean svcErr req0).1.variant = "") ∧
    ((ResolveString svcErr req0).1.value = "" ∧
      (ResolveString svcErr req0).1.variant = "") ∧
    ((ResolveInt svcErr req0).1.value = 0 ∧ (ResolveInt svcErr req0).1.variant = "") ∧
    ((ResolveFloat svcErr req0).1.value = 0 ∧ (ResolveFloat svcErr req0).1.variant = "") ∧
    ((ResolveObject svcErr req0).1.value = none ∧
      (ResolveObject svcErr req0).1.variant = "") := by
  have h := C9_error_response_zero svcErr req0 "boom" "" ""
  exact ⟨h.1 false rfl, h.2.1 "" rfl, h.2.2.1 0 rfl, h.2.2.2.1 0 rfl, h.2.2.2.2 [] rfl⟩

/-- Helper: the error built by HandleEvaluationError is never nil, because the
selected status code is never OK. -/
theorem handleEvaluationError_isSome (msg reason : String) (marshalOk : Bool) :
    (HandleEvaluationError msg reason marshalOk).isSome = true := by
  simp only [HandleEvaluationError, withDetails, statusNew, statusErr,
    FlagNotFoundErrorCode, TypeMismatchErrorCode]
  by_cases h1 : msg = "FLAG_NOT_FOUND" <;> by_cases h2 : msg = "TYPE_MISMATCH" <;>
    cases marshalOk <;> simp [h1, h2]

/-- C8: in structured-object resolution, when the evaluator succeeds but the
structpb conversion of its mapping fails, the conversion error is routed through
HandleEvaluationError and the call returns the zero-valued response paired with a
non-nil status error. -/
theorem C8_conversion_error_routed (s : GRPCService) (req : ResolutionRequest)
    (m : List (String × DynValue)) (var rsn e : String)
    (hev : s.eval.resolveObjectValue req.flagKey req.context = (m, var, rsn, none))
    (hconv : newStruct m = Except.error e) :
    ResolveObject s req = ({}, HandleEvaluationError e rsn s.marshalOk) ∧
    (HandleEvaluationError e rsn s.marshalOk).isSome = true := by
  constructor
  · simp [ResolveObject, hev, hconv]
  · exact handleEvaluationError_isSome e rsn s.marshalOk

/-- Evaluator identical to the erroring one except that object resolution
succeeds with a mapping containing an unconvertible Go value. -/
def evalObjBad : IEvaluator :=
  { evalErr with resolveObjectValue :=
      fun _ _ => ([("a", DynValue.unsupported "chan int")], "variantA", "STATIC", none) }

/-- Service bound to the evaluator with the unconvertible object mapping. -/
def svcObjBad : GRPCService := { grpcServiceConfiguration := cfg0, eval := evalObjBad }

/-- Witness for C8 at a mapping whose value is an unsupported Go type. -/
theorem C8_witness :
    ResolveObject svcObjBad req0 =
      ({}, HandleEvaluationError "proto: invalid type: chan int" "STATIC" true) ∧
    (HandleEvaluationError "proto: invalid type: chan int" "STATIC" true).isSome
      = true :=
  C8_conversion_error_routed svcObjBad req0 [("a", DynValue.unsupported "chan int")]
    "variantA" "STATIC" "proto: invalid type: chan int" rfl rfl

/-- Evaluator that resolves the empty flag key to true (variant "on") and every
other key to false (variant "off"). -/
def evalEmptyTrue : IEvaluator :=
  { evalErr with resolveBooleanValue :=
      fun k _ => if k = "" then (true, "on", "STATIC", none)
                 else (false, "off", "STATIC", none) }

/-- Identical to evalEmptyTrue except at the empty flag key, where it resolves to
false (variant "off0"); the two evaluators agree on every non-empty key. -/
def evalEmptyFalse : IEvaluator :=
  { evalErr with resolveBooleanValue :=
      fun k _ => if k = "" then (false, "off0", "STATIC", none)
                 else (false, "off", "STATIC", none) }

/-- Service bound to evalEmptyTrue. -/
def svcEmptyTrue : GRPCService := { grpcServiceConfiguration := cfg0, eval := evalEmptyTrue }

/-- Service bound to evalEmptyFalse. -/
def svcEmptyFalse : GRPCService :=
  { grpcServiceConfiguration := cfg0, eval := evalEmptyFalse }

/-- C4 counterexample: a request with an empty flagKey IS forwarded to the
evaluator — no emptiness check exists.  The two services differ only in the
evaluator's answer at the empty key, and that answer is visible in the successful
responses, so the evaluator was consulted and the request was not rejected. -/
theorem C4_counterexample :
    (ResolveBoolean svcEmptyTrue { flagKey := "", context := [] }).1.value = true ∧
    (ResolveBoolean svcEmptyFalse { flagKey := "", context := [] }).1.value = false ∧
    (ResolveBoolean svcEmptyTrue { flagKey := "", context := [] }).2 = none := by
  exact ⟨rfl, rfl, rfl⟩

/-- C4 amended: the service performs no emptiness check on flagKey; the key —
including the empty key — and the context are forwarded unchanged to the
evaluator, whose outcome determines the response. -/
theorem C4_amended_empty_key_forwarded (s : GRPCService) (ctx : Ctx)
    (v : Bool) (var rsn : String)
    (h : s.eval.resolveBooleanValue "" ctx = (v, var, rsn, none)) :
    ResolveBoolean s { flagKey := "", context := ctx } =
      ({ value := v, variant := var, reason := rsn }, none) := by
  simp [ResolveBoolean, h]

/-- Witness for the amended C4 at the concrete evaluator evalEmptyTrue. -/
theorem C4_amended_witness :
    ResolveBoolean svcEmptyTrue { flagKey := "", context := [] } =
      ({ value := true, variant := "on", reason := "STATIC" }, none) :=
  C4_amended_empty_key_forwarded svcEmptyTrue [] true "on" "STATIC" rfl

/-- An environment where every effect succeeds and shutdown comes from the
external cancellation signal. -/
def envOk : ServeEnv :=
  { tlsLoad := Except.ok (), listen := fun _ => Except.ok (),
    acceptLoop := AcceptOutcome.ctxCancelled }

/-- An environment where TLS and listening succeed but the accept loop fails with
a listener-closed error before any cancellation. -/
def envLoopErr : ServeEnv :=
  { tlsLoad := Except.ok (), listen := fun _ => Except.ok (),
    acceptLoop := AcceptOutcome.loopError "accept tcp: use of closed network connection" }

/-- C3 counterexample: the accept loop fails after the service reached the
serving phase, yet Serve returns nil — not a non-nil error. -/
theorem C3_counterexample :
    (Serve cfg0 envLoopErr).served = true ∧ (Serve cfg0 envLoopErr).result = none := by
  exact ⟨rfl, rfl⟩

/-- C3 amended: when the accept loop fails after the service reached Serving, the
errgroup context cancellation unblocks Serve — the caller does not hang — but the
accept-loop error is discarded: Serve returns nil, not the error. -/
theorem C3_amended_loop_error_discarded (cfg : GRPCServiceConfiguration)
    (env : ServeEnv) (e : String)
    (hloop : env.acceptLoop = AcceptOutcome.loopError e)
    (hserved : (Serve cfg env).served = true) :
    (Serve cfg env).result = none := by
  by_cases hc : cfg.ServerCertPath ≠ "" ∧ cfg.ServerKeyPath ≠ "" <;>
    rcases htls : env.tlsLoad with etls | utls <;>
    rcases hl : env.listen (selectTransport cfg) with el | ul <;>
    simp [Serve, serveListen, hc, htls, hl, hloop] at hserved ⊢

/-- Witness for the amended C3: concrete configuration and failing accept loop. -/
theorem C3_amended_witness : (Serve cfg0 envLoopErr).result = none :=
  C3_amended_loop_error_discarded cfg0 envLoopErr
    "accept tcp: use of closed network connection" rfl rfl

/-- A configuration with a certificate path but no key path. -/
def cfgCertOnly : GRPCServiceConfiguration :=
  { Port := 8013, ServerKeyPath := "", ServerCertPath := "/certs/server.crt",
    ServerSocketPath := "" }

/-- C5 counterexample: with exactly one of the cert/key paths set, Serve proceeds
to listener creation (in plaintext) instead of rejecting the configuration. -/
theorem C5_counterexample :
    (Serve cfgCertOnly envOk).listenAttempted = some (Transport.tcp 8013) ∧
    (Serve cfgCertOnly envOk).result = none ∧
    (Serve cfgCertOnly envOk).tlsUsed = false := by
  exact ⟨rfl, rfl, rfl⟩

/-- C5 amended: no both-or-neither validation exists.  When at least one of the
cert/key paths is empty the TLS block is skipped entirely (no error, no
credentials) and Serve proceeds to create the selected listener unencrypted. -/
theorem C5_amended_one_sided_tls_skipped (cfg : GRPCServiceConfiguration)
    (env : ServeEnv) (h : cfg.ServerCertPath = "" ∨ cfg.ServerKeyPath = "") :
    (Serve cfg env).tlsUsed = false ∧
    (Serve cfg env).listenAttempted = some (selectTransport cfg) := by
  have hc : ¬ (cfg.ServerCertPath ≠ "" ∧ cfg.ServerKeyPath ≠ "") := by
    rcases h with h | h <;> simp [h]
  rcases hl : env.listen (selectTransport cfg) with el | ul <;>
    rcases hacc : env.acceptLoop with _ | e2 <;>
    simp [Serve, serveListen, hc, hl, hacc]

/-- Witness for the amended C5 at the cert-only configuration. -/
theorem C5_amended_witness :
    (Serve cfgCertOnly envOk).tlsUsed = false ∧
    (Serve cfgCertOnly envOk).listenAttempted = some (selectTransport cfgCertOnly) :=
  C5_amended_one_sided_tls_skipped cfgCertOnly envOk (Or.inr rfl)

/-- Helper: any listener Serve attempts to create uses exactly the transport
selected from the configuration. -/
theorem Serve_listenAttempted_selected (cfg : GRPCServiceConfiguration)
    (env : ServeEnv) :
    (Serve cfg env).listenAttempted = none ∨
    (Serve cfg env).listenAttempted = some (selectTransport cfg) := by
  by_cases hc : cfg.ServerCertPath ≠ "" ∧ cfg.ServerKeyPath ≠ "" <;>
    rcases htls : env.tlsLoad with etls | utls <;>
    rcases hl : env.listen (selectTransport cfg) with el | ul <;>
    rcases hacc : env.acceptLoop with _ | e2 <;>
    simp [Serve, serveListen, hc, htls, hl, hacc]

/-- C7: transport selection.  With a non-empty socket path the selected transport
is the local-domain socket at that path, and Serve never attempts a TCP listener
even though a port is configured; with an empty socket path the selected
transport is TCP on the configured port.  Every listener Serve attempts uses the
selected transport. -/
theorem C7_transport_selection (cfg : GRPCServiceConfiguration) (env : ServeEnv) :
    (cfg.ServerSocketPath ≠ "" →
      selectTransport cfg = Transport.unix cfg.ServerSocketPath ∧
      ∀ p : Int, (Serve cfg env).listenAttempted ≠ some (Transport.tcp p)) ∧
    (cfg.ServerSocketPath = "" → selectTransport cfg = Transport.tcp cfg.Port) ∧
    ((Serve cfg env).listenAttempted = none ∨
      (Serve cfg env).listenAttempted = some (selectTransport cfg)) := by
  refine ⟨fun hs => ⟨?_, ?_⟩, fun hs => ?_, Serve_listenAttempted_selected cfg env⟩
  · simp [selectTransport, hs]
  · intro p hp
    rcases Serve_listenAttempted_selected cfg env with h | h <;> rw [h] at hp <;>
      simp [selectTransport, hs] at hp
  · simp [selectTransport, hs]

/-- A configuration with both a socket path and a port set. -/
def cfgSocket : GRPCServiceConfiguration :=
  { Port := 8013, ServerKeyPath := "", ServerCertPath := "",
    ServerSocketPath := "/tmp/flagd.sock" }

/-- Witness for C7: with both socket path and port set the unix transport is
selected and no TCP listener is ever attempted; with no socket path the TCP
transport on the port is selected. -/
theorem C7_witness :
    (selectTransport cfgSocket = Transport.unix "/tmp/flagd.sock" ∧
      ∀ p : Int, (Serve cfgSocket envOk).listenAttempted ≠ some (Transport.tcp p)) ∧
    selectTransport cfg0 = Transport.tcp 8013 := by
  have h1 := (C7_transport_selection cfgSocket envOk).1 (by decide)
  have h2 := (C7_transport_selection cfg0 envOk).2.1 rfl
  exact ⟨⟨h1.1, h1.2⟩, h2⟩

end Flagd
